import Mathlib

/-!
Shallow embedding of the startup/orchestration logic of
`evaluate_reconstruction.py` (exploring_exploration repository).

The script parses run arguments, selects one of two vectorized environment
backends by substring match on the environment name, loads a cluster store
from an HDF5 file, constructs and restores models from checkpoints, and
assembles an evaluation configuration dictionary for the external
evaluation driver.  The definitions below mirror the source line by line;
machine floats are modelled as rationals, numpy arrays as shape-tagged
index functions, Python dictionaries (with insertion order) as association
lists, and Python exceptions as `Option`/`Except` failures.
-/

/-- Python substring prefix test on character lists: first argument is the
candidate prefix. -/
def listHasPre : List Char → List Char → Bool
  | [], _ => true
  | _ :: _, [] => false
  | c :: cs, d :: ds => c == d && listHasPre cs ds

/-- Auxiliary scan for substring containment. -/
def hasSubAux (pat : List Char) : List Char → Bool
  | [] => pat.isEmpty
  | c :: cs => listHasPre pat (c :: cs) || hasSubAux pat cs

/-- Python `pat in s` substring containment on strings. -/
def strContains (s pat : String) : Bool :=
  hasSubAux pat.data s.data

/-- Accumulating decimal-digit parser; fails on a non-digit character. -/
def parseDigitsAux : List Char → Nat → Option Nat
  | [], acc => some acc
  | c :: cs, acc =>
      if c.isDigit then parseDigitsAux cs (acc * 10 + (c.toNat - 48)) else none

/-- Parse of a nonempty all-digit character list as a natural number. -/
def parseDigits : List Char → Option Nat
  | [] => none
  | c :: cs => parseDigitsAux (c :: cs) 0

/-- Python `int(s)` on a decimal string, `none` when it raises ValueError.
Python tolerates surrounding whitespace and one optional sign. -/
def pyInt (s : String) : Option Int :=
  let cs := (s.data.dropWhile Char.isWhitespace).reverse.dropWhile Char.isWhitespace
  match cs.reverse with
  | '-' :: rest => (parseDigits rest).map (fun n => -(n : Int))
  | '+' :: rest => (parseDigits rest).map (fun n => (n : Int))
  | rest => (parseDigits rest).map (fun n => (n : Int))

/-- Auxiliary splitter for Python `s.split(",")`: accumulates the current
field in reverse. -/
def splitCommaAux : List Char → List Char → List (List Char)
  | [], acc => [acc.reverse]
  | c :: cs, acc =>
      if c = ',' then acc.reverse :: splitCommaAux cs []
      else splitCommaAux cs (c :: acc)

/-- Python `s.split(",")`. -/
def pySplitComma (s : String) : List String :=
  (splitCommaAux s.data []).map List.asString

/-- Dtype tag of a numpy array (the two dtypes this script manipulates). -/
inductive DType where
  | float32
  | uint8
deriving DecidableEq

/-- Numpy array model: a dtype tag, an explicit shape, and entries read
through a multi-index function (entries as exact rationals). -/
structure NDArray where
  dtype : DType
  shape : List Nat
  val : List Nat → ℚ

/-- Numpy cast of a nonnegative float to uint8: C-style truncation toward
zero, reduced modulo 256. -/
def castUint8 (q : ℚ) : ℚ :=
  ((⌊q⌋ % 256 : ℤ) : ℚ)

/-- Model of `np.ascontiguousarray(arr.transpose(0, 2, 3, 1))` from lines
111 and 112: defined only on 4-dimensional arrays (numpy raises otherwise).
The entry at index (k, h, w, c) of the result is the entry at
(k, c, h, w) of the input. -/
def transpose0231 (a : NDArray) : Option NDArray :=
  match a.shape with
  | [k, c, h, w] =>
      some { dtype := a.dtype
             shape := [k, h, w, c]
             val := fun idx =>
               match idx with
               | [i, j, l, m] => a.val [i, m, j, l]
               | _ => 0 }
  | _ => none

/-- Model of `(cluster_images * 255.0).astype(np.uint8)` from line 113:
multiply every entry by 255 and cast to unsigned 8-bit, tagging the
result uint8. -/
def scaleToUint8 (a : NDArray) : NDArray :=
  { dtype := DType.uint8
    shape := a.shape
    val := fun idx => castUint8 (a.val idx * 255) }

/-- HDF5 cluster store: the top-level centroid array plus the per-cluster
image datasets; a missing or unreadable dataset is `none`. -/
structure ClusterStore where
  cluster_centroids : NDArray
  cluster_images : Nat → Option NDArray

/-- Reading and post-processing of one per-cluster image dataset (lines
109 to 113): read `cluster_i/images`, transpose to channel-last, rescale
to 8-bit.  Any failure (missing dataset or non-4-dimensional shape)
models a raised exception. -/
def readCluster (store : ClusterStore) (i : Nat) : Option NDArray :=
  ((store.cluster_images i).bind transpose0231).map scaleToUint8

/-- Sequential loop over cluster indices (lines 108 to 114); the first
failing read aborts the whole loop, as a Python exception would. -/
def readClustersList (store : ClusterStore) : List Nat → Option (List NDArray)
  | [] => some []
  | i :: is =>
      (readCluster store i).bind fun b =>
        (readClustersList store is).map (fun bs => b :: bs)

/-- Result of the cluster-loading phase: centroids, the derived cluster
count, and the processed image arrays indexed by cluster. -/
structure LoadResult where
  centroids : NDArray
  nclusters : Nat
  clusters2images : List NDArray

/-- Model of lines 102 to 115.  The file handle is opened, the centroid
array and every per-cluster image dataset are read, and only then is
`clusters_h5.close()` executed; the boolean in the result records whether
the close call ran.  A failed per-cluster read propagates as an exception
before the close statement is reached, leaving the handle open. -/
def loadClusters (store : ClusterStore) : Except Unit LoadResult × Bool :=
  match readClustersList store (List.range (store.cluster_centroids.shape.headD 0)) with
  | none => (Except.error (), false)
  | some imgs =>
      (Except.ok ⟨store.cluster_centroids, store.cluster_centroids.shape.headD 0, imgs⟩,
        true)

/-- Run arguments consumed by the startup sequence (the fields of `args`
this script reads). -/
structure Args where
  env_name : String
  actor_type : String
  encoder_type : String
  use_multi_gpu : Bool
  use_action_embedding : Bool
  use_collision_embedding : Bool
  num_steps : Nat
  num_processes : Nat
  eval_episodes : Nat
  num_pose_refs : Nat
  n_transformer_layers : Nat
  frontier_dilate_occ : Bool
  max_time_per_target : Nat
  log_dir : String

/-- Observation/action space exposed by the constructed vectorized
environment: the shapes of the named observation spaces this script
reads. -/
structure ObsSpace where
  highres_coarse_occupancy : List Nat
  im : List Nat
  action_space_n : Nat

/-- Model of lines 60 to 66: a learned policy is required exactly when the
actor type is none of the fixed non-learned strategies. -/
def requiresPolicy (actor_type : String) : Bool :=
  !(["random", "oracle", "forward", "forward-plus", "frontier"].contains actor_type)

/-- Model of lines 67 to 75 (habitat branch only): when the accelerator
visibility variable is set, split it on commas, parse each entry as an
integer (a parse failure raises, modelled by the outer `none`), then
re-index to the contiguous range 0..N-1; when unset, devices stay `none`. -/
def deriveHabitatDevices (cudaVisibleDevices : Option String) :
    Option (Option (List Nat)) :=
  match cudaVisibleDevices with
  | none => some none
  | some s =>
      match (pySplitComma s).mapM pyInt with
      | none => none
      | some ds => some (some (List.range ds.length))

/-- Model of lines 79 to 82 and 95 to 98: the frontier occupancy-map scale,
computed only when the actor type is frontier.  The habitat branch reads
entry 1 of the highres_coarse_occupancy shape and uses factor 0.1; the
avd branch reads entry 0 and uses factor 50.0; large_map_range is 100. -/
def computeOccMapScale (a : Args) (obs : ObsSpace) : Option ℚ :=
  if strContains a.env_name "habitat" then
    if a.actor_type = "frontier" then
      some ((1 / 10 : ℚ) * (2 * 100 + 1) / (obs.highres_coarse_occupancy.getD 1 0 : ℚ))
    else none
  else
    if a.actor_type = "frontier" then
      some ((50 : ℚ) * (2 * 100 + 1) / (obs.highres_coarse_occupancy.getD 0 0 : ℚ))
    else none

/-- Wrapping state of a model handle: plain, or wrapped in
`nn.DataParallel` along the given batch dimension. -/
inductive WrapState where
  | plain
  | dataParallel (dim : Nat)
deriving DecidableEq

/-- Wrapping states of the three reconstruction models after the model
creation phase. -/
structure WrappedModels where
  decoder : WrapState
  feature_network : WrapState
  pose_encoder : WrapState
deriving DecidableEq

/-- Model of lines 118 to 126: the feature network is wrapped along batch
dimension 0 unconditionally (line 122); the decoder (dimension 1) and the
pose encoder (dimension 0) are wrapped only under use_multi_gpu. -/
def wrapModels (use_multi_gpu : Bool) : WrappedModels :=
  let fn := WrapState.dataParallel 0
  if use_multi_gpu then
    { decoder := WrapState.dataParallel 1
      feature_network := fn
      pose_encoder := WrapState.dataParallel 0 }
  else
    { decoder := WrapState.plain
      feature_network := fn
      pose_encoder := WrapState.plain }

/-- Constructed decoder: `FeatureReconstructionModule(nclusters, nclusters,
nlayers=args.n_transformer_layers)` keeps its two positional cluster
dimensions and the layer count. -/
structure DecoderModel where
  arg0 : Nat
  arg1 : Nat
  nlayers : Nat
deriving DecidableEq

/-- Model of the constructor call on lines 118 to 120. -/
def FeatureReconstructionModule (nclassA nclassB nlayers : Nat) : DecoderModel :=
  ⟨nclassA, nclassB, nlayers⟩

/-- Decoder construction with the cluster count derived from the store. -/
def buildDecoder (a : Args) (nclusters : Nat) : DecoderModel :=
  FeatureReconstructionModule nclusters nclusters a.n_transformer_layers

/-- States and mode flags of the models after the checkpoint-restore phase
(lines 153 to 170); the state blobs are abstract. -/
structure Restored (α : Type) where
  decoder_state : α
  pose_encoder_state : α
  encoder_state : Option α
  actor_critic_state : Option α
  decoder_eval : Bool
  pose_encoder_eval : Bool
  feature_network_eval : Bool
  encoder_eval : Option Bool
  actor_critic_eval : Option Bool
deriving DecidableEq

/-- Model of lines 153 to 170.  `torch.load(path)[:2]` takes the first two
entries of the checkpoint positionally; unpacking fails (`none`) unless
exactly two remain.  The first entry of the reconstruction checkpoint goes
to the decoder and the second to the pose encoder; under requires_policy
the first entry of the policy checkpoint goes to the encoder and the
second to the actor critic.  Every constructed model is then switched to
eval mode. -/
def restoreModels {α : Type} (recCkpt polCkpt : List α) (reqPol : Bool) :
    Option (Restored α) :=
  match recCkpt.take 2 with
  | [ds, ps] =>
      if reqPol then
        match polCkpt.take 2 with
        | [es, acs] =>
            some { decoder_state := ds
                   pose_encoder_state := ps
                   encoder_state := some es
                   actor_critic_state := some acs
                   decoder_eval := true
                   pose_encoder_eval := true
                   feature_network_eval := true
                   encoder_eval := some true
                   actor_critic_eval := some true }
        | _ => none
      else
        some { decoder_state := ds
               pose_encoder_state := ps
               encoder_state := none
               actor_critic_state := none
               decoder_eval := true
               pose_encoder_eval := true
               feature_network_eval := true
               encoder_eval := none
               actor_critic_eval := none }
  | _ => none

/-- Value stored in the evaluation configuration dictionary. -/
inductive ConfigValue where
  | nat (n : Nat)
  | rat (q : ℚ)
  | str (s : String)
  | bool (b : Bool)
  | natList (l : List Nat)
  | tensor (a : NDArray)
  | imageMap (m : List NDArray)
  | fnref (name : String)

/-- Model of lines 172 to 193: the eval_config dictionary as an
association list in insertion order.  The three frontier-only entries are
appended exactly when the actor type is frontier, reading the
occupancy-map scale computed during environment setup. -/
def startupEvalConfig (a : Args) (obs : ObsSpace) (centroids : NDArray)
    (images : List NDArray) : List (String × ConfigValue) :=
  let base : List (String × ConfigValue) :=
    [("num_steps", ConfigValue.nat a.num_steps),
     ("num_processes", ConfigValue.nat a.num_processes),
     ("feat_shape_sim", ConfigValue.natList [512]),
     ("odometer_shape", ConfigValue.natList [4]),
     ("num_eval_episodes", ConfigValue.nat a.eval_episodes),
     ("num_pose_refs", ConfigValue.nat a.num_pose_refs),
     ("env_name", ConfigValue.str a.env_name),
     ("actor_type", ConfigValue.str a.actor_type),
     ("encoder_type", ConfigValue.str a.encoder_type),
     ("use_action_embedding", ConfigValue.bool a.use_action_embedding),
     ("use_collision_embedding", ConfigValue.bool a.use_collision_embedding),
     ("cluster_centroids", ConfigValue.tensor centroids),
     ("clusters2images", ConfigValue.imageMap images),
     ("rec_loss_fn", ConfigValue.fnref "rec_loss_fn_classify"),
     ("vis_save_dir", ConfigValue.str (a.log_dir ++ "/visualizations")),
     ("forward_action_id",
       ConfigValue.nat (if strContains a.env_name "avd" then 2 else 0)),
     ("turn_action_id",
       ConfigValue.nat (if strContains a.env_name "avd" then 0 else 1))]
  if a.actor_type = "frontier" then
    base ++
      [("occ_map_scale",
         ConfigValue.rat ((computeOccMapScale a obs).getD 0)),
       ("frontier_dilate_occ", ConfigValue.bool a.frontier_dilate_occ),
       ("max_time_per_target", ConfigValue.nat a.max_time_per_target)]
  else base

/-- Model of lines 195 to 201: the keys of the assembled models
dictionary, in insertion order. -/
def modelBundleKeys (actor_type : String) : List String :=
  ["decoder", "pose_encoder", "feature_network"] ++
    (if requiresPolicy actor_type then ["actor_critic", "encoder"] else [])

/-! Concrete instances used by witnesses and counterexamples. -/

/-- Concrete run arguments for an avd environment with a non-learned,
non-frontier actor. -/
def argsAvd : Args :=
  { env_name := "avd_env1"
    actor_type := "forward"
    encoder_type := "rgb"
    use_multi_gpu := false
    use_action_embedding := false
    use_collision_embedding := false
    num_steps := 4
    num_processes := 1
    eval_episodes := 2
    num_pose_refs := 1
    n_transformer_layers := 2
    frontier_dilate_occ := false
    max_time_per_target := 10
    log_dir := "logs" }

/-- Concrete run arguments for a habitat environment with the frontier
actor. -/
def argsFrontierHab : Args :=
  { argsAvd with env_name := "habitat_pointnav", actor_type := "frontier" }

/-- Concrete observation space. -/
def obsA : ObsSpace :=
  { highres_coarse_occupancy := [67, 67, 3]
    im := [84, 84, 3]
    action_space_n := 3 }

/-- Concrete centroid array with 2 rows. -/
def centroidsA : NDArray :=
  { dtype := DType.float32, shape := [2, 16], val := fun _ => 1 / 4 }

/-- Concrete stored channel-first image array of shape (2, 3, 4, 5). -/
def imgA : NDArray :=
  { dtype := DType.float32, shape := [2, 3, 4, 5], val := fun _ => 1 / 2 }

/-- Concrete cluster store with one cluster whose dataset is readable. -/
def goodStore : ClusterStore :=
  { cluster_centroids := { dtype := DType.float32, shape := [1, 16], val := fun _ => 0 }
    cluster_images := fun i => if i = 0 then some imgA else none }

/-- Expected load result for goodStore. -/
def rGood : LoadResult :=
  { centroids := goodStore.cluster_centroids
    nclusters := 1
    clusters2images := [scaleToUint8 ((transpose0231 imgA).getD imgA)] }

/-- Concrete cluster store whose centroid array announces 2 clusters but
whose second per-cluster dataset is missing, so the read loop fails
partway. -/
def badStore : ClusterStore :=
  { cluster_centroids := { dtype := DType.float32, shape := [2, 16], val := fun _ => 0 }
    cluster_images := fun i => if i = 0 then some imgA else none }

/-! Claim theorems. -/

/-- C1: for every environment name, the assembled evaluation configuration
maps actions by backend marker: a name containing the marker "avd" yields
forward_action_id = 2 and turn_action_id = 0; any other name yields
forward_action_id = 0 and turn_action_id = 1. -/
theorem action_id_mapping_by_backend (a : Args) (obs : ObsSpace)
    (c : NDArray) (im : List NDArray) :
    (strContains a.env_name "avd" = true →
      (startupEvalConfig a obs c im).lookup "forward_action_id"
          = some (ConfigValue.nat 2) ∧
      (startupEvalConfig a obs c im).lookup "turn_action_id"
          = some (ConfigValue.nat 0)) ∧
    (strContains a.env_name "avd" = false →
      (startupEvalConfig a obs c im).lookup "forward_action_id"
          = some (ConfigValue.nat 0) ∧
      (startupEvalConfig a obs c im).lookup "turn_action_id"
          = some (ConfigValue.nat 1)) := by
  by_cases hf : a.actor_type = "frontier" <;>
    constructor <;> intro h <;>
      simp [startupEvalConfig, List.lookup, hf, h]

/-- Witness for C1 at a concrete avd environment name. -/
theorem action_id_mapping_by_backend_witness :
    strContains argsAvd.env_name "avd" = true ∧
    (startupEvalConfig argsAvd obsA centroidsA []).lookup "forward_action_id"
        = some (ConfigValue.nat 2) ∧
    (startupEvalConfig argsAvd obsA centroidsA []).lookup "turn_action_id"
        = some (ConfigValue.nat 0) :=
  ⟨by decide,
   ((action_id_mapping_by_backend argsAvd obsA centroidsA []).1 (by decide)).1,
   ((action_id_mapping_by_backend argsAvd obsA centroidsA []).1 (by decide)).2⟩

/-- C2: the model bundle contains the actor_critic and encoder handles if
and only if the actor type is none of random, oracle, forward,
forward-plus, frontier; the decoder, pose_encoder and feature_network
handles are present for every actor type. -/
theorem model_bundle_membership (actor : String) :
    ("actor_critic" ∈ modelBundleKeys actor ↔
      actor ∉ ["random", "oracle", "forward", "forward-plus", "frontier"]) ∧
    ("encoder" ∈ modelBundleKeys actor ↔
      actor ∉ ["random", "oracle", "forward", "forward-plus", "frontier"]) ∧
    "decoder" ∈ modelBundleKeys actor ∧
    "pose_encoder" ∈ modelBundleKeys actor ∧
    "feature_network" ∈ modelBundleKeys actor := by
  by_cases hm : actor ∈ ["random", "oracle", "forward", "forward-plus", "frontier"] <;>
    simp [modelBundleKeys, requiresPolicy, hm, List.contains_iff_exists_mem_beq]

/-- C4: checkpoint restore is positional.  The first entry of the
reconstruction checkpoint is loaded into the decoder and the second into
the pose encoder; when a policy is required, the first entry of the policy
checkpoint goes to the encoder and the second to the actor critic; every
constructed model ends up in eval mode. -/
theorem checkpoint_restore_positional {α : Type} (d p : α) (rest pol : List α) :
    (restoreModels (d :: p :: rest) pol false =
      some { decoder_state := d, pose_encoder_state := p,
             encoder_state := none, actor_critic_state := none,
             decoder_eval := true, pose_encoder_eval := true,
             feature_network_eval := true,
             encoder_eval := none, actor_critic_eval := none }) ∧
    (∀ e acs rest2, pol = e :: acs :: rest2 →
      restoreModels (d :: p :: rest) pol true =
        some { decoder_state := d, pose_encoder_state := p,
               encoder_state := some e, actor_critic_state := some acs,
               decoder_eval := true, pose_encoder_eval := true,
               feature_network_eval := true,
               encoder_eval := some true, actor_critic_eval := some true }) := by
  refine ⟨rfl, ?_⟩
  intro e acs rest2 hpol
  subst hpol
  rfl

/-- Witness for C4 on concrete two-entry checkpoints of naturals. -/
theorem checkpoint_restore_positional_witness :
    ([30, 40] : List Nat) = 30 :: 40 :: [] ∧
    restoreModels [10, 20] [30, 40] true =
      some { decoder_state := 10, pose_encoder_state := 20,
             encoder_state := some 30, actor_critic_state := some 40,
             decoder_eval := true, pose_encoder_eval := true,
             feature_network_eval := true,
             encoder_eval := some true, actor_critic_eval := some true } :=
  ⟨rfl, (checkpoint_restore_positional 10 20 [] [30, 40]).2 30 40 [] rfl⟩

/-- C5: the evaluation configuration contains the keys occ_map_scale,
frontier_dilate_occ and max_time_per_target exactly when the actor type is
frontier, and the occupancy-map scale is computed exactly when the actor
type is frontier. -/
theorem frontier_keys_iff (a : Args) (obs : ObsSpace) (c : NDArray)
    (im : List NDArray) :
    (((startupEvalConfig a obs c im).lookup "occ_map_scale").isSome = true ↔
      a.actor_type = "frontier") ∧
    (((startupEvalConfig a obs c im).lookup "frontier_dilate_occ").isSome = true ↔
      a.actor_type = "frontier") ∧
    (((startupEvalConfig a obs c im).lookup "max_time_per_target").isSome = true ↔
      a.actor_type = "frontier") ∧
    ((computeOccMapScale a obs).isSome = true ↔ a.actor_type = "frontier") := by
  by_cases hf : a.actor_type = "frontier" <;>
    by_cases hh : strContains a.env_name "habitat" = true <;>
      simp [startupEvalConfig, computeOccMapScale, List.lookup, hf, hh]

/-- C7: for the habitat backend, a set accelerator-visibility variable
listing N parsable device ids yields the contiguous device list 0..N-1
regardless of the listed values; in particular "2,5,7" yields [0, 1, 2];
an unset variable leaves the device list as None. -/
theorem habitat_devices_reindexed (s : String) (ds : List Int)
    (hparse : (pySplitComma s).mapM pyInt = some ds) :
    deriveHabitatDevices (some s) = some (some (List.range ds.length)) ∧
    deriveHabitatDevices none = some none ∧
    deriveHabitatDevices (some "2,5,7") = some (some [0, 1, 2]) := by
  refine ⟨?_, rfl, by decide⟩
  have h2 : deriveHabitatDevices (some s) =
      match (pySplitComma s).mapM pyInt with
      | none => none
      | some ds2 => some (some (List.range ds2.length)) := rfl
  rw [h2, hparse]

/-- Witness for C7 at the visibility list "2,5,7". -/
theorem habitat_devices_reindexed_witness :
    (pySplitComma "2,5,7").mapM pyInt = some [2, 5, 7] ∧
    deriveHabitatDevices (some "2,5,7") = some (some (List.range 3)) :=
  ⟨by decide, (habitat_devices_reindexed "2,5,7" [2, 5, 7] (by decide)).1⟩

/-- Counterexample for C8: with multi-device execution not requested, the
feature network is nonetheless wrapped for data-parallel replication
(line 122 wraps it unconditionally), so wrapping does not happen exactly
when multi-device execution is requested. -/
theorem wrap_counterexample_single_device :
    (wrapModels false).feature_network = WrapState.dataParallel 0 ∧
    (wrapModels false).feature_network ≠ WrapState.plain := by decide

/-- C8 amended: the decoder and the pose encoder are wrapped exactly when
multi-device execution is requested, along batch axes 1 and 0
respectively, while the feature network is always wrapped along batch
axis 0. -/
theorem wrap_axes (b : Bool) :
    (wrapModels b).decoder = (if b then WrapState.dataParallel 1 else WrapState.plain) ∧
    (wrapModels b).pose_encoder = (if b then WrapState.dataParallel 0 else WrapState.plain) ∧
    (wrapModels b).feature_network = WrapState.dataParallel 0 := by
  cases b <;> simp [wrapModels]

/-- Helper: elements of a successful cluster-read loop are the per-index
read results. -/
theorem readClustersList_getElem (store : ClusterStore) (xs : List Nat) :
    ∀ l, readClustersList store xs = some l →
      ∀ j : Nat, l[j]? = (xs[j]?).bind (readCluster store) := by
  induction xs with
  | nil =>
      intro l h j
      simp [readClustersList] at h
      subst h
      simp
  | cons i is ih =>
      intro l h j
      rw [readClustersList] at h
      cases hb : readCluster store i with
      | none => rw [hb] at h; simp at h
      | some b =>
          rw [hb] at h
          cases hbs : readClustersList store is with
          | none => rw [hbs] at h; simp at h
          | some bs =>
              rw [hbs] at h
              simp at h
              subst h
              cases j with
              | zero => simp [hb]
              | succ j => simpa using ih bs hbs j

/-- Helper: a successful cluster load fixes the centroids, the cluster
count and the read loop outcome. -/
theorem loadClusters_ok_elim (store : ClusterStore) (r : LoadResult)
    (h : (loadClusters store).1 = Except.ok r) :
    r.centroids = store.cluster_centroids ∧
    r.nclusters = store.cluster_centroids.shape.headD 0 ∧
    readClustersList store (List.range (store.cluster_centroids.shape.headD 0))
      = some r.clusters2images := by
  unfold loadClusters at h
  cases hcl : readClustersList store (List.range (store.cluster_centroids.shape.headD 0)) with
  | none => rw [hcl] at h; simp at h
  | some imgs =>
      rw [hcl] at h
      have h2 : Except.ok
          (⟨store.cluster_centroids, store.cluster_centroids.shape.headD 0, imgs⟩ :
            LoadResult) = Except.ok r := h
      injection h2 with h3
      subst h3
      exact ⟨rfl, rfl, rfl⟩

/-- C3: every successfully loaded cluster image array is the stored
channel-first float array transposed to channel-last layout, multiplied by
255 and cast to unsigned 8-bit; in particular it carries dtype uint8 and
shape (K, H, W, C) when the stored array has shape (K, C, H, W). -/
theorem clusters2images_uint8_channel_last
    (store : ClusterStore) (r : LoadResult)
    (hload : (loadClusters store).1 = Except.ok r)
    (i K C H W : Nat) (a : NDArray)
    (hread : store.cluster_images i = some a)
    (hshape : a.shape = [K, C, H, W])
    (hi : i < r.nclusters) :
    ∃ b, r.clusters2images[i]? = some b ∧
      b.dtype = DType.uint8 ∧ b.shape = [K, H, W, C] ∧
      ∀ k h w c : Nat, b.val [k, h, w, c] = castUint8 (a.val [k, c, h, w] * 255) := by
  obtain ⟨hc, hn, hcl⟩ := loadClusters_ok_elim store r hload
  rw [← hn] at hcl
  have hget := readClustersList_getElem store (List.range r.nclusters)
    r.clusters2images hcl i
  rw [List.getElem?_range hi] at hget
  simp only [Option.some_bind] at hget
  obtain ⟨dt, sh, v⟩ := a
  simp only at hshape
  subst hshape
  rw [readCluster, hread] at hget
  simp only [Option.some_bind, transpose0231] at hget
  simp only [Option.map_some'] at hget
  exact ⟨_, hget, rfl, rfl, fun k h w c => rfl⟩

/-- Witness for C3 on a concrete one-cluster store with a (2, 3, 4, 5)
stored array. -/
theorem clusters2images_uint8_channel_last_witness :
    (loadClusters goodStore).1 = Except.ok rGood ∧
    goodStore.cluster_images 0 = some imgA ∧
    imgA.shape = [2, 3, 4, 5] ∧ 0 < rGood.nclusters ∧
    (∃ b, rGood.clusters2images[0]? = some b ∧
      b.dtype = DType.uint8 ∧ b.shape = [2, 4, 5, 3] ∧
      ∀ k h w c : Nat, b.val [k, h, w, c] = castUint8 (imgA.val [k, c, h, w] * 255)) :=
  ⟨rfl, rfl, rfl, by decide,
   clusters2images_uint8_channel_last goodStore rGood rfl 0 2 3 4 5 imgA rfl rfl
     (by decide)⟩

/-- Counterexample for C6: on a store announcing two clusters whose second
per-cluster dataset is unreadable, the load fails partway and the close
call never runs, so the handle is not released on the failure path. -/
theorem load_close_counterexample :
    (loadClusters badStore).1 = Except.error () ∧
    (loadClusters badStore).2 = false :=
  ⟨rfl, rfl⟩

/-- C6 amended: the file handle is closed exactly when every per-cluster
read succeeds; a failed read propagates before the close statement, so the
handle stays open. -/
theorem close_iff_load_ok (store : ClusterStore) :
    (loadClusters store).2 = true ↔
      ∃ r, (loadClusters store).1 = Except.ok r := by
  cases hcl : readClustersList store (List.range (store.cluster_centroids.shape.headD 0)) with
  | none => unfold loadClusters; rw [hcl]; simp
  | some imgs => unfold loadClusters; rw [hcl]; simp

/-- Counterexample for C9: on concrete startup inputs the assembled
evaluation configuration has no nclusters key at all. -/
theorem nclusters_absent_from_eval_config :
    (startupEvalConfig argsAvd obsA centroidsA []).lookup "nclusters" = none := rfl

/-- C9 amended: the cluster count of a successful load equals the number
of centroid rows and is carried on the run configuration, the decoder is
constructed with both cluster dimensions equal to that count, and the
assembled evaluation configuration contains no nclusters key. -/
theorem nclusters_centroid_rows (a : Args) (obs : ObsSpace) (c : NDArray)
    (im : List NDArray) (store : ClusterStore) (r : LoadResult)
    (hload : (loadClusters store).1 = Except.ok r) :
    r.nclusters = store.cluster_centroids.shape.headD 0 ∧
    (buildDecoder a r.nclusters).arg0 = store.cluster_centroids.shape.headD 0 ∧
    (buildDecoder a r.nclusters).arg1 = store.cluster_centroids.shape.headD 0 ∧
    (startupEvalConfig a obs c im).lookup "nclusters" = none := by
  have hn := (loadClusters_ok_elim store r hload).2.1
  refine ⟨hn, hn, hn, ?_⟩
  by_cases hf : a.actor_type = "frontier" <;>
    simp [startupEvalConfig, List.lookup, hf]

/-- Witness for C9 amended on the concrete one-cluster store. -/
theorem nclusters_centroid_rows_witness :
    (loadClusters goodStore).1 = Except.ok rGood ∧
    (rGood.nclusters = goodStore.cluster_centroids.shape.headD 0 ∧
     (buildDecoder argsAvd rGood.nclusters).arg0
        = goodStore.cluster_centroids.shape.headD 0 ∧
     (buildDecoder argsAvd rGood.nclusters).arg1
        = goodStore.cluster_centroids.shape.headD 0 ∧
     (startupEvalConfig argsAvd obsA centroidsA []).lookup "nclusters" = none) :=
  ⟨rfl, nclusters_centroid_rows argsAvd obsA centroidsA [] goodStore rGood rfl⟩

/-- C10: with the frontier actor, the occupancy-map scale uses the habitat
formula 0.1 * (2 * 100 + 1) / H with H the second entry of the
highres_coarse_occupancy shape when the environment name contains habitat,
and otherwise the avd formula 50.0 * (2 * 100 + 1) / H with H the first
entry of that shape. -/
theorem occ_map_scale_backend_formula (a : Args) (obs : ObsSpace)
    (hf : a.actor_type = "frontier") :
    (strContains a.env_name "habitat" = true →
      computeOccMapScale a obs =
        some ((1 / 10 : ℚ) * (2 * 100 + 1) /
          (obs.highres_coarse_occupancy.getD 1 0 : ℚ))) ∧
    (strContains a.env_name "habitat" = false →
      computeOccMapScale a obs =
        some ((50 : ℚ) * (2 * 100 + 1) /
          (obs.highres_coarse_occupancy.getD 0 0 : ℚ))) := by
  constructor <;> intro hh <;> simp [computeOccMapScale, hf, hh]

/-- Witness for C10 on a concrete habitat frontier configuration. -/
theorem occ_map_scale_backend_formula_witness :
    argsFrontierHab.actor_type = "frontier" ∧
    strContains argsFrontierHab.env_name "habitat" = true ∧
    computeOccMapScale argsFrontierHab obsA =
      some ((1 / 10 : ℚ) * (2 * 100 + 1) /
        (obsA.highres_coarse_occupancy.getD 1 0 : ℚ)) :=
  ⟨rfl, by decide,
   (occ_map_scale_backend_formula argsFrontierHab obsA rfl).1 (by decide)⟩
